import Mathlib

/-!
Shallow embedding of the CineRecap AI application (src/types.ts and the two
variants of src/App.tsx, plus services/geminiService.ts) and proofs about its
specified behaviour.  Browser primitives (`window.navigator`, `window.screen`,
`btoa`, `JSON.parse`, the outbound model call, `localStorage`) are modelled
explicitly: the environment is a record of the attributes the code reads,
`btoa` is implemented as real base64 over Latin-1 (failing, like the browser
one, on code points above U+00FF), and `JSON.parse` / the model call are
function parameters of the service, mirroring their role as external inputs.
-/

namespace CineRecap

/-- The view status enumeration from src/types.ts (`enum AppStatus`). -/
inductive AppStatus where
  | IDLE
  | GENERATING
  | COMPLETED
  | ERROR
deriving DecidableEq, Repr

/-- Recap request length from src/types.ts (`length: 'short' | 'medium' | 'detailed'`). -/
inductive RecapLength where
  | short
  | medium
  | detailed
deriving DecidableEq, Repr

/-- Rendering of a `RecapLength` when interpolated into a template string. -/
def RecapLength.render : RecapLength → String
  | .short => "short"
  | .medium => "medium"
  | .detailed => "detailed"

/-- The `MovieInfo` interface from src/types.ts. -/
structure MovieInfo where
  title : String
  genre : String
  director : String
  keyPlotPoints : String
  tone : String
  includeSpoilers : Bool
  length : RecapLength
deriving DecidableEq, Repr

/-- The `GeneratedRecap` interface from src/types.ts. -/
structure GeneratedRecap where
  tagline : String
  summary : String
  characterAnalysis : String
  keyTakeaways : List String
  verdict : String
deriving DecidableEq, Repr

/-- The `User` interface from src/types.ts. -/
structure User where
  username : String
  deviceId : String
deriving DecidableEq, Repr

/-- Browser environment attributes read by the two fingerprint variants:
`navigator.userAgent/platform/language/hardwareConcurrency`,
`screen.width/height/availWidth/availHeight/colorDepth`,
`new Date().getTimezoneOffset()` and `!!window.chrome`.
`hardwareConcurrency = 0` models a falsy (absent) value, matching the
JavaScript `nav.hardwareConcurrency || 'unknown'` test. -/
structure Env where
  userAgent : String
  platform : String
  language : String
  hardwareConcurrency : Nat
  screenWidth : Nat
  screenHeight : Nat
  availWidth : Nat
  availHeight : Nat
  colorDepth : Nat
  timezoneOffset : Int
  chrome : Bool

/-- The standard base64 alphabet used by `btoa`. -/
def base64Chars : List Char :=
  "ABCDEFGHIJKLMNOPQRSTUVWXYZabcdefghijklmnopqrstuvwxyz0123456789+/".data

/-- Character of the base64 alphabet at a sextet value. -/
def b64c (n : Nat) : Char := base64Chars.getD n 'A'

/-- Base64-encode a list of bytes (standard alphabet, `=` padding). -/
def b64Encode : List Nat → List Char
  | [] => []
  | [a] => [b64c (a / 4), b64c (a % 4 * 16), '=', '=']
  | [a, b] => [b64c (a / 4), b64c (a % 4 * 16 + b / 16), b64c (b % 16 * 4), '=']
  | a :: b :: c :: rest =>
      b64c (a / 4) :: b64c (a % 4 * 16 + b / 16) :: b64c (b % 16 * 4 + c / 64) ::
        b64c (c % 64) :: b64Encode rest

/-- The browser `btoa`: base64 of the Latin-1 bytes of the string; throws
(modelled as `none`) when some character is outside the Latin-1 range. -/
def btoa (s : String) : Option String :=
  if s.data.all (fun ch => ch.toNat ≤ 255) then
    some ⟨b64Encode (s.data.map Char.toNat)⟩
  else
    none

/-- The `idString` built by fingerprint variant 1 (src/App.tsx lines 30-38):
user agent, platform, hardware concurrency (or `'unknown'` when falsy),
screen geometry, avail geometry, timezone offset and the literal `'v1'`,
joined with `'|'`. -/
def idStringV1 (env : Env) : String :=
  String.intercalate "|"
    [ env.userAgent
    , env.platform
    , if env.hardwareConcurrency = 0 then "unknown" else toString env.hardwareConcurrency
    , toString env.screenWidth ++ "x" ++ toString env.screenHeight
    , toString env.availWidth ++ "x" ++ toString env.availHeight
    , toString env.timezoneOffset
    , "v1" ]

/-- The character class kept by variant 1's `.replace(/[^a-zA-Z0-0]/g, '')`:
the regex range `0-0` contains only the digit `'0'`, so letters and `'0'`
survive and every other character (including digits 1-9) is removed. -/
def keptByV1 (c : Char) : Bool :=
  ('a' ≤ c && c ≤ 'z') || ('A' ≤ c && c ≤ 'Z') || c = '0'

/-- JavaScript `s.slice(-n)`: the last `n` characters (the whole string when
it is shorter than `n`). -/
def sliceLast (n : Nat) (s : String) : String :=
  ⟨s.data.drop (s.data.length - n)⟩

/-- JavaScript `s.slice(0, n)`: the first `n` characters. -/
def sliceFirst (n : Nat) (s : String) : String :=
  ⟨s.data.take n⟩

/-- JavaScript `s.toUpperCase()` restricted to the ASCII output of the
pipeline. -/
def toUpperStr (s : String) : String :=
  ⟨s.data.map Char.toUpper⟩

/-- Fingerprint variant 1 (src/App.tsx lines 27-46): base64-encode the id
string, strip characters outside `[a-zA-Z0]`, keep the last 12, uppercase;
on encoding failure return the sentinel `'ERR-DEVICE-ID'`. -/
def getDeviceFingerprintV1 (env : Env) : String :=
  match btoa (idStringV1 env) with
  | some encoded => toUpperStr (sliceLast 12 ⟨encoded.data.filter keptByV1⟩)
  | none => "ERR-DEVICE-ID"

/-- The `idString` built by fingerprint variant 2 (src/App.tsx lines 359-366):
user agent, language, color depth, screen geometry, timezone offset and
`!!window.chrome`, joined with `'|'`. -/
def idStringV2 (env : Env) : String :=
  String.intercalate "|"
    [ env.userAgent
    , env.language
    , toString env.colorDepth
    , toString env.screenWidth ++ "x" ++ toString env.screenHeight
    , toString env.timezoneOffset
    , if env.chrome then "true" else "false" ]

/-- Fingerprint variant 2 (src/App.tsx lines 356-373): the first 16 characters
of the base64 encoding; on encoding failure return the sentinel
`'UNKNOWN-DEVICE'`. -/
def getDeviceFingerprintV2 (env : Env) : String :=
  match btoa (idStringV2 env) with
  | some encoded => sliceFirst 16 encoded
  | none => "UNKNOWN-DEVICE"

/-- An entry of the `AUTHORIZED_USERS` table: a password and an allow-list of
device fingerprints. -/
structure AuthConfig where
  pass : String
  deviceIds : List String
deriving DecidableEq, Repr

/-- The `AUTHORIZED_USERS` table of variant 1 (src/App.tsx lines 13-22), as
the lookup `AUTHORIZED_USERS[username]`. -/
def lookupV1 (username : String) : Option AuthConfig :=
  if username = "admin" then some ⟨"0000", []⟩
  else if username = "editor" then some ⟨"recap2025", []⟩
  else none

/-- The `AUTHORIZED_USERS` table of variant 2 (src/App.tsx lines 337-346). -/
def lookupV2 (username : String) : Option AuthConfig :=
  if username = "admin" then some ⟨"0000", ["TW96aWxsYS81LjAg", "REVCVUctREVWSUNFLTI="]⟩
  else if username = "demo-user" then some ⟨"moviepass123", []⟩
  else none

/-- Variant 1's device-not-authorized message (src/App.tsx line 99). -/
def deniedMsgV1 (deviceId username : String) : String :=
  "ACCESS DENIED: This device (" ++ deviceId ++ ") is not registered for user \"" ++
    username ++ "\"."

/-- Variant 2's device-not-authorized message (src/App.tsx line 428). -/
def deniedMsgV2 (deviceId : String) : String :=
  "Unauthorized Device. Please provide this ID to the admin to add it to your account: " ++
    deviceId

/-- Outcome of `handleLogin`: either an auth error shown to the user (the
handler returns before any session is created), or a successful login, in
which case the carried `User` is both set as the session and persisted to
storage (`setUser(newUser); localStorage.setItem(...)`). -/
inductive LoginOutcome where
  | failure (authError : String)
  | success (session : User)
deriving DecidableEq, Repr

/-- Shared control flow of `handleLogin` (src/App.tsx lines 85-106 and
414-435; the two variants differ only in their table and denial message):
look up the username; fail with the invalid-credentials message when the
entry is missing or the password mismatches; fail with the denial message
when the current fingerprint is not in the allow-list; otherwise succeed
with `{ username, deviceId: currentDeviceId }`. -/
def handleLoginGen (table : String → Option AuthConfig)
    (denied : String → String → String)
    (currentDeviceId username password : String) : LoginOutcome :=
  match table username with
  | none => .failure "Invalid username or password."
  | some config =>
    if config.pass ≠ password then .failure "Invalid username or password."
    else if ¬ currentDeviceId ∈ config.deviceIds then
      .failure (denied currentDeviceId username)
    else .success ⟨username, currentDeviceId⟩

/-- Variant 1's `handleLogin`. -/
def handleLoginV1 : String → String → String → LoginOutcome :=
  handleLoginGen lookupV1 deniedMsgV1

/-- Variant 2's `handleLogin` (its denial message ignores the username). -/
def handleLoginV2 : String → String → String → LoginOutcome :=
  handleLoginGen lookupV2 (fun dev _ => deniedMsgV2 dev)

/-- The startup session-restore effect (src/App.tsx lines 70-83 and 398-412,
identical in both variants).  Input: the persisted session record (if any)
and the freshly computed fingerprint.  Output: the resulting `user` state
(initially `null`) and the resulting persisted record — when the stored
`deviceId` matches the fingerprint the session is restored, otherwise the
record is removed (`localStorage.removeItem`) and the user stays logged
out. -/
def restoreSession (stored : Option User) (fingerprint : String) :
    Option User × Option User :=
  match stored with
  | some savedUser =>
      if savedUser.deviceId = fingerprint then (some savedUser, some savedUser)
      else (none, none)
  | none => (none, none)

/-- JSON values, as produced by the platform `JSON.parse`. -/
inductive Json where
  | null
  | bool (b : Bool)
  | num (n : Int)
  | str (s : String)
  | arr (elems : List Json)
  | obj (fields : List (String × Json))

/-- Property access `j[key]` on a parsed value: defined on objects, and
`undefined` (modelled `none`) elsewhere. -/
def Json.getField : Json → String → Option Json
  | .obj fields, key => fields.lookup key
  | _, _ => none

/-- View of a JSON value as a string. -/
def Json.asStr : Json → Option String
  | .str s => some s
  | _ => none

/-- View of a JSON value as an array of strings. -/
def Json.asStrArr : Json → Option (List String)
  | .arr elems => elems.mapM Json.asStr
  | _ => none

/-- The TypeScript `JSON.parse(text) as GeneratedRecap` cast performs no
runtime validation: each field of the result is whatever the parsed object
carries under that key.  A missing or mistyped field is observed as
`undefined`, modelled here by the default value of the field's type. -/
def recapOfJson (j : Json) : GeneratedRecap :=
  { tagline := ((j.getField "tagline").bind Json.asStr).getD ""
  , summary := ((j.getField "summary").bind Json.asStr).getD ""
  , characterAnalysis := ((j.getField "characterAnalysis").bind Json.asStr).getD ""
  , keyTakeaways := ((j.getField "keyTakeaways").bind Json.asStrArr).getD []
  , verdict := ((j.getField "verdict").bind Json.asStr).getD "" }

/-- Conformance to the `responseSchema` declared in the request
(services/geminiService.ts lines 656-670): an object carrying the five
required fields with their declared types (four strings and an array of
strings). -/
def Json.isSchemaConformant (j : Json) : Bool :=
  ((j.getField "tagline").bind Json.asStr).isSome &&
  ((j.getField "summary").bind Json.asStr).isSome &&
  ((j.getField "characterAnalysis").bind Json.asStr).isSome &&
  ((j.getField "keyTakeaways").bind Json.asStrArr).isSome &&
  ((j.getField "verdict").bind Json.asStr).isSome

/-- The prompt template literal of `generateMovieRecap`
(services/geminiService.ts lines 638-649). -/
def buildPrompt (info : MovieInfo) : String :=
  "\n    Write a professional movie recap for the following film:\n    Title: " ++
  info.title ++ "\n    Genre: " ++ info.genre ++ "\n    Director: " ++ info.director ++
  "\n    Key Plot Points: " ++ info.keyPlotPoints ++ "\n    Tone: " ++ info.tone ++
  "\n    Include Spoilers: " ++ (if info.includeSpoilers then "Yes" else "No") ++
  "\n    Recap Length: " ++ info.length.render ++
  "\n\n    The recap should be engaging and high-quality.\n  "

/-- Stand-in for the message of the `SyntaxError` thrown by the platform
`JSON.parse` on unparseable text (its exact wording is platform-defined). -/
def jsonParseErrorMsg : String := "Unexpected token in JSON"

/-- `generateMovieRecap` (services/geminiService.ts lines 635-678).  The
external call is the parameter `callModel`, mapping the prompt to the
response's `text` field (`none` models `undefined`); the platform JSON
parser is the parameter `jsonParse` (`none` models a `SyntaxError`).  The
source throws `"No response from AI"` when `text` is falsy (absent or the
empty string), propagates the parse error on unparseable text, and
otherwise returns the parsed value cast to `GeneratedRecap`. -/
def generateMovieRecap (callModel : String → Option String)
    (jsonParse : String → Option Json) (info : MovieInfo) :
    Except String GeneratedRecap :=
  match callModel (buildPrompt info) with
  | none => .error "No response from AI"
  | some text =>
    if text = "" then .error "No response from AI"
    else
      match jsonParse text with
      | none => .error jsonParseErrorMsg
      | some j => .ok (recapOfJson j)

/-- The mutable view state touched by the submit/reset handlers: `status`,
`error` and `recap` (src/App.tsx lines 56-58). -/
structure AppState where
  status : AppStatus
  error : Option String
  recap : Option GeneratedRecap
deriving DecidableEq, Repr

/-- One complete run of `handleSubmit` (src/App.tsx lines 121-136 and
450-465), given the awaited outcome of `generateMovieRecap`.  Returns the
final state together with whether an external request was issued.  An empty
title (`if (!formData.title) return`) leaves the state untouched and issues
no request.  Otherwise the handler passes through GENERATING with the error
cleared, then on success stores the recap and reaches COMPLETED, and on
failure stores the error message (with the `'Failed to generate recap.'`
fallback for an empty message) and reaches ERROR, leaving `recap`
unchanged. -/
def handleSubmitRun (st : AppState) (title : String)
    (result : Except String GeneratedRecap) : AppState × Bool :=
  if title = "" then (st, false)
  else
    match result with
    | .ok r => (⟨.COMPLETED, none, some r⟩, true)
    | .error m =>
        (⟨.ERROR, some (if m = "" then "Failed to generate recap." else m), st.recap⟩, true)

/-- UI events that drive the recap view's state machine: the submit handler
firing, the awaited request resolving or rejecting, and the reset button. -/
inductive UiEvent where
  | submitStart (title : String)
  | requestSuccess (r : GeneratedRecap)
  | requestFailure (msg : String)
  | reset
deriving DecidableEq, Repr

/-- One step of the view state machine, `none` when the event cannot fire in
the current view.  Availability follows the rendered UI: the submit button
is disabled while GENERATING (src/App.tsx lines 256-258) and the form panel
is hidden or pointer-events-none when COMPLETED (line 234); a request
resolves only while one is in flight, i.e. in GENERATING (single-threaded,
no concurrent requests); the reset button (`resetForm`) is rendered only in
the COMPLETED panel (lines 314 and 620).  The effects are those of
`handleSubmit` (with its empty-title guard) and `resetForm`. -/
def uiStep (st : AppState) : UiEvent → Option AppState
  | .submitStart title =>
      if st.status = .GENERATING ∨ st.status = .COMPLETED then none
      else if title = "" then some st
      else some ⟨.GENERATING, none, st.recap⟩
  | .requestSuccess r =>
      if st.status = .GENERATING then some ⟨.COMPLETED, st.error, some r⟩ else none
  | .requestFailure m =>
      if st.status = .GENERATING then
        some ⟨.ERROR, some (if m = "" then "Failed to generate recap." else m), st.recap⟩
      else none
  | .reset =>
      if st.status = .COMPLETED then some ⟨.IDLE, st.error, none⟩ else none

/-- The transition relation claimed by the specification's state-machine
description, written from the spec's words for comparison with `uiStep`:
submit IDLE→GENERATING, success GENERATING→COMPLETED, failure
GENERATING→ERROR, reset COMPLETED/ERROR→IDLE. -/
def specTransition (a b : AppStatus) : Bool :=
  (a = .IDLE && b = .GENERATING) || (a = .GENERATING && b = .COMPLETED) ||
  (a = .GENERATING && b = .ERROR) || ((a = .COMPLETED || a = .ERROR) && b = .IDLE)

/-- A string occurs verbatim inside another. -/
def containsSubstr (s sub : String) : Prop :=
  ∃ pre suf, s = pre ++ sub ++ suf

theorem strAppendAssoc (a b c : String) : a ++ b ++ c = a ++ (b ++ c) := by
  apply String.ext
  simp [String.data_append, List.append_assoc]

/-- C1: on startup session restore, a persisted record whose stored deviceId
differs from the fresh fingerprint is deleted from storage and the user
stays logged out; a matching record is restored; and any restored user's
stored fingerprint equals the current device fingerprint. -/
theorem restore_session_fingerprint_check (stored : Option User) (fingerprint : String) :
    (∀ u, stored = some u → u.deviceId ≠ fingerprint →
        restoreSession stored fingerprint = (none, none)) ∧
    (∀ u, stored = some u → u.deviceId = fingerprint →
        restoreSession stored fingerprint = (some u, some u)) ∧
    (∀ u, (restoreSession stored fingerprint).1 = some u → u.deviceId = fingerprint) := by
  refine ⟨?_, ?_, ?_⟩
  · intro u hst hne
    subst hst
    simp [restoreSession, hne]
  · intro u hst heq
    subst hst
    simp [restoreSession, heq]
  · intro u hres
    match hst : stored with
    | none => simp [restoreSession, hst] at hres
    | some v =>
      by_cases hd : v.deviceId = fingerprint
      · have : v = u := by simpa [restoreSession, hst, hd] using hres
        exact this ▸ hd
      · simp [restoreSession, hst, hd] at hres

theorem restore_session_fingerprint_check_witness :
    restoreSession (some ⟨"admin", "OLDFP"⟩) "NEWFP" = (none, none) :=
  (restore_session_fingerprint_check (some ⟨"admin", "OLDFP"⟩) "NEWFP").1
    ⟨"admin", "OLDFP"⟩ rfl (by decide)

/-- C2: in both variants, valid credentials with a device fingerprint absent
from the user's allow-list fail with the device-not-authorized message,
that message contains the computed fingerprint verbatim, and no session is
created. -/
theorem login_denied_reveals_fingerprint (current username password : String)
    (config : AuthConfig) :
    (lookupV1 username = some config → config.pass = password →
        current ∉ config.deviceIds →
        handleLoginV1 current username password = .failure (deniedMsgV1 current username) ∧
        containsSubstr (deniedMsgV1 current username) current ∧
        ∀ u, handleLoginV1 current username password ≠ .success u) ∧
    (lookupV2 username = some config → config.pass = password →
        current ∉ config.deviceIds →
        handleLoginV2 current username password = .failure (deniedMsgV2 current) ∧
        containsSubstr (deniedMsgV2 current) current ∧
        ∀ u, handleLoginV2 current username password ≠ .success u) := by
  constructor
  · intro hlook hpass hmem
    have hres : handleLoginV1 current username password =
        .failure (deniedMsgV1 current username) := by
      simp [handleLoginV1, handleLoginGen, hlook, hpass, hmem]
    refine ⟨hres, ?_, ?_⟩
    · exact ⟨"ACCESS DENIED: This device (",
        ") is not registered for user \"" ++ username ++ "\".",
        by simp [deniedMsgV1, strAppendAssoc]⟩
    · intro u h
      rw [hres] at h
      exact LoginOutcome.noConfusion h
  · intro hlook hpass hmem
    have hres : handleLoginV2 current username password =
        .failure (deniedMsgV2 current) := by
      simp [handleLoginV2, handleLoginGen, hlook, hpass, hmem]
    refine ⟨hres, ?_, ?_⟩
    · exact ⟨"Unauthorized Device. Please provide this ID to the admin to add it to your account: ",
        "", by simp [deniedMsgV2, strAppendAssoc]⟩
    · intro u h
      rw [hres] at h
      exact LoginOutcome.noConfusion h

theorem login_denied_reveals_fingerprint_witness :
    handleLoginV1 "DEV-X" "admin" "0000" = .failure (deniedMsgV1 "DEV-X" "admin") ∧
    containsSubstr (deniedMsgV1 "DEV-X" "admin") "DEV-X" ∧
    ∀ u, handleLoginV1 "DEV-X" "admin" "0000" ≠ .success u :=
  (login_denied_reveals_fingerprint "DEV-X" "admin" "0000" ⟨"0000", []⟩).1
    rfl rfl (by decide)

/-- C3: in both variants, an unknown username and a wrong password for a
known username fail with one and the same invalid-credentials result, so
the error does not reveal which field was wrong, and no session is
created. -/
theorem login_invalid_credentials_uniform (current username password : String) :
    ((lookupV1 username = none ∨
        ∃ config, lookupV1 username = some config ∧ config.pass ≠ password) →
      handleLoginV1 current username password = .failure "Invalid username or password." ∧
      ∀ u, handleLoginV1 current username password ≠ .success u) ∧
    ((lookupV2 username = none ∨
        ∃ config, lookupV2 username = some config ∧ config.pass ≠ password) →
      handleLoginV2 current username password = .failure "Invalid username or password." ∧
      ∀ u, handleLoginV2 current username password ≠ .success u) := by
  constructor
  · intro h
    have hres : handleLoginV1 current username password =
        .failure "Invalid username or password." := by
      rcases h with h | ⟨config, hlook, hne⟩
      · simp [handleLoginV1, handleLoginGen, h]
      · simp [handleLoginV1, handleLoginGen, hlook, hne]
    exact ⟨hres, fun u h' => LoginOutcome.noConfusion (hres ▸ h')⟩
  · intro h
    have hres : handleLoginV2 current username password =
        .failure "Invalid username or password." := by
      rcases h with h | ⟨config, hlook, hne⟩
      · simp [handleLoginV2, handleLoginGen, h]
      · simp [handleLoginV2, handleLoginGen, hlook, hne]
    exact ⟨hres, fun u h' => LoginOutcome.noConfusion (hres ▸ h')⟩

theorem login_invalid_credentials_uniform_witness :
    (handleLoginV1 "DEV-X" "nobody" "pw" = .failure "Invalid username or password." ∧
      ∀ u, handleLoginV1 "DEV-X" "nobody" "pw" ≠ .success u) ∧
    (handleLoginV1 "DEV-X" "admin" "1234" = .failure "Invalid username or password." ∧
      ∀ u, handleLoginV1 "DEV-X" "admin" "1234" ≠ .success u) :=
  ⟨(login_invalid_credentials_uniform "DEV-X" "nobody" "pw").1 (Or.inl (by decide)),
   (login_invalid_credentials_uniform "DEV-X" "admin" "1234").1
     (Or.inr ⟨⟨"0000", []⟩, by decide, by decide⟩)⟩

/-- C4: `generateMovieRecap` fails whenever the response text is absent,
empty, or not parseable as JSON, and in that case `handleSubmit` catches
the failure, the state machine reaches ERROR in that single run (no retry
is attempted), and the stored recap value is unchanged. -/
theorem recap_failure_reaches_error (callModel : String → Option String)
    (jsonParse : String → Option Json) (info : MovieInfo) :
    (callModel (buildPrompt info) = none ∨ callModel (buildPrompt info) = some "" ∨
      ∃ t, callModel (buildPrompt info) = some t ∧ jsonParse t = none) →
    (∃ m, generateMovieRecap callModel jsonParse info = .error m) ∧
    ∀ st : AppState, info.title ≠ "" →
      (handleSubmitRun st info.title
          (generateMovieRecap callModel jsonParse info)).1.status = .ERROR ∧
      (handleSubmitRun st info.title
          (generateMovieRecap callModel jsonParse info)).1.recap = st.recap := by
  intro h
  have herr : ∃ m, generateMovieRecap callModel jsonParse info = .error m := by
    rcases h with h | h | ⟨t, ht, hp⟩
    · exact ⟨"No response from AI", by simp [generateMovieRecap, h]⟩
    · exact ⟨"No response from AI", by simp [generateMovieRecap, h]⟩
    · by_cases hte : t = ""
      · exact ⟨"No response from AI", by simp [generateMovieRecap, ht, hte]⟩
      · exact ⟨jsonParseErrorMsg, by simp [generateMovieRecap, ht, hte, hp]⟩
  refine ⟨herr, ?_⟩
  obtain ⟨m, hm⟩ := herr
  intro st htitle
  rw [hm]
  constructor <;> simp [handleSubmitRun, htitle]

theorem recap_failure_reaches_error_witness :
    (handleSubmitRun ⟨.IDLE, none, none⟩ "Inception"
        (generateMovieRecap (fun _ => some "not json") (fun _ => none)
          ⟨"Inception", "", "", "", "Dramatic", false, .short⟩)).1.status = .ERROR ∧
    (handleSubmitRun ⟨.IDLE, none, none⟩ "Inception"
        (generateMovieRecap (fun _ => some "not json") (fun _ => none)
          ⟨"Inception", "", "", "", "Dramatic", false, .short⟩)).1.recap =
      (⟨.IDLE, none, none⟩ : AppState).recap :=
  (recap_failure_reaches_error (fun _ => some "not json") (fun _ => none)
      ⟨"Inception", "", "", "", "Dramatic", false, .short⟩
      (Or.inr (Or.inr ⟨"not json", rfl, rfl⟩))).2
    ⟨.IDLE, none, none⟩ (by decide)

/-- C10: submitting the recap form with an empty title is a no-op:
`handleSubmit` returns immediately with the status, error and recap fields
unchanged, and no external request is issued. -/
theorem empty_title_submit_noop (st : AppState)
    (result : Except String GeneratedRecap) :
    handleSubmitRun st "" result = (st, false) := by
  simp [handleSubmitRun]

/-- C5 counterexample: the submit handler is available in the ERROR state
(the submit button is disabled only while GENERATING and the form is only
hidden when COMPLETED), and it moves the status from ERROR to GENERATING —
a transition outside the list claimed by the specification. -/
theorem status_machine_retry_counterexample :
    uiStep ⟨.ERROR, some "boom", none⟩ (.submitStart "Inception") =
      some ⟨.GENERATING, none, none⟩ ∧
    specTransition .ERROR .GENERATING = false := by
  constructor <;> rfl

/-- C5 (amended): the status ranges over exactly IDLE, GENERATING, COMPLETED
and ERROR, and every step of the UI-event machine either leaves the status
unchanged or is one of: submit takes IDLE or ERROR (retry) to GENERATING,
request success takes GENERATING to COMPLETED, request failure takes
GENERATING to ERROR, and reset takes COMPLETED to IDLE. -/
theorem status_machine_transitions :
    (∀ s : AppStatus, s = .IDLE ∨ s = .GENERATING ∨ s = .COMPLETED ∨ s = .ERROR) ∧
    ∀ (st : AppState) (ev : UiEvent) (st' : AppState), uiStep st ev = some st' →
      st'.status = st.status ∨
      ((st.status = .IDLE ∨ st.status = .ERROR) ∧ st'.status = .GENERATING ∧
        ∃ t, ev = .submitStart t ∧ t ≠ "") ∨
      (st.status = .GENERATING ∧ st'.status = .COMPLETED ∧ ∃ r, ev = .requestSuccess r) ∨
      (st.status = .GENERATING ∧ st'.status = .ERROR ∧ ∃ m, ev = .requestFailure m) ∨
      (st.status = .COMPLETED ∧ st'.status = .IDLE ∧ ev = .reset) := by
  constructor
  · intro s
    cases s <;> simp
  · intro st ev st' h
    cases ev with
    | submitStart t =>
      by_cases hc : st.status = .GENERATING ∨ st.status = .COMPLETED
      · simp [uiStep, hc] at h
      · by_cases ht : t = ""
        · have : st = st' := by simpa [uiStep, hc, ht] using h
          exact Or.inl (this ▸ rfl)
        · have hst' : st' = ⟨.GENERATING, none, st.recap⟩ := by
            have := (by simpa [uiStep, hc, ht] using h :
              (⟨.GENERATING, none, st.recap⟩ : AppState) = st')
            exact this.symm
          refine Or.inr (Or.inl ⟨?_, by simp [hst'], ⟨t, rfl, ht⟩⟩)
          rcases hs : st.status with _ | _ | _ | _
          · exact Or.inl rfl
          · exact absurd (Or.inl hs) hc
          · exact absurd (Or.inr hs) hc
          · exact Or.inr rfl
    | requestSuccess r =>
      by_cases hg : st.status = .GENERATING
      · have hst' : st' = ⟨.COMPLETED, st.error, some r⟩ := by
          have := (by simpa [uiStep, hg] using h :
            (⟨.COMPLETED, st.error, some r⟩ : AppState) = st')
          exact this.symm
        exact Or.inr (Or.inr (Or.inl ⟨hg, by simp [hst'], ⟨r, rfl⟩⟩))
      · simp [uiStep, hg] at h
    | requestFailure m =>
      by_cases hg : st.status = .GENERATING
      · have hst' : st' =
            ⟨.ERROR, some (if m = "" then "Failed to generate recap." else m), st.recap⟩ := by
          have := (by simpa [uiStep, hg] using h :
            (⟨.ERROR, some (if m = "" then "Failed to generate recap." else m),
              st.recap⟩ : AppState) = st')
          exact this.symm
        exact Or.inr (Or.inr (Or.inr (Or.inl ⟨hg, by simp [hst'], ⟨m, rfl⟩⟩)))
      · simp [uiStep, hg] at h
    | reset =>
      by_cases hcmp : st.status = .COMPLETED
      · have hst' : st' = ⟨.IDLE, st.error, none⟩ := by
          have := (by simpa [uiStep, hcmp] using h :
            (⟨.IDLE, st.error, none⟩ : AppState) = st')
          exact this.symm
        exact Or.inr (Or.inr (Or.inr (Or.inr ⟨hcmp, by simp [hst'], rfl⟩)))
      · simp [uiStep, hcmp] at h

theorem status_machine_transitions_witness :
    AppStatus.GENERATING = AppStatus.IDLE ∨
    ((AppStatus.IDLE = AppStatus.IDLE ∨ AppStatus.IDLE = AppStatus.ERROR) ∧
      AppStatus.GENERATING = AppStatus.GENERATING ∧
      ∃ t, UiEvent.submitStart "Inception" = UiEvent.submitStart t ∧ t ≠ "") ∨
    (AppStatus.IDLE = AppStatus.GENERATING ∧ AppStatus.GENERATING = AppStatus.COMPLETED ∧
      ∃ r, UiEvent.submitStart "Inception" = UiEvent.requestSuccess r) ∨
    (AppStatus.IDLE = AppStatus.GENERATING ∧ AppStatus.GENERATING = AppStatus.ERROR ∧
      ∃ m, UiEvent.submitStart "Inception" = UiEvent.requestFailure m) ∨
    (AppStatus.IDLE = AppStatus.COMPLETED ∧ AppStatus.GENERATING = AppStatus.IDLE ∧
      UiEvent.submitStart "Inception" = UiEvent.reset) :=
  status_machine_transitions.2 ⟨.IDLE, none, none⟩ (.submitStart "Inception")
    ⟨.GENERATING, none, none⟩ rfl

/-- C6 counterexample: a response whose five fields are an empty tagline,
empty strings and an empty takeaway list is schema-conformant (the schema
only requires presence and types), yet the Inception submission then yields
a recap with an empty tagline and an empty `keyTakeaways` list — the code
never enforces non-emptiness. -/
theorem recap_empty_fields_counterexample :
    (Json.obj [("tagline", .str ""), ("summary", .str ""),
      ("characterAnalysis", .str ""), ("keyTakeaways", .arr []),
      ("verdict", .str "")]).isSchemaConformant = true ∧
    generateMovieRecap (fun _ => some "resp")
      (fun _ => some (Json.obj [("tagline", .str ""), ("summary", .str ""),
        ("characterAnalysis", .str ""), ("keyTakeaways", .arr []),
        ("verdict", .str "")]))
      ⟨"Inception", "", "", "", "Dramatic", false, .short⟩ =
      .ok ⟨"", "", "", [], ""⟩ ∧
    (⟨"", "", "", [], ""⟩ : GeneratedRecap).tagline = "" ∧
    (⟨"", "", "", [], ""⟩ : GeneratedRecap).keyTakeaways = ([] : List String) :=
  ⟨rfl, rfl, rfl, rfl⟩

/-- C6 (amended): when the external call returns non-empty text that parses
to schema-conformant JSON, the Inception submission (like any submission)
yields exactly the recap carried by that JSON: each of the five fields of
the result is the corresponding response field, so tagline and keyTakeaways
are non-empty precisely when the response's are — the code itself does not
enforce non-emptiness. -/
theorem recap_fields_follow_response (callModel : String → Option String)
    (jsonParse : String → Option Json) (info : MovieInfo) (t : String) (j : Json) :
    callModel (buildPrompt info) = some t → t ≠ "" → jsonParse t = some j →
    j.isSchemaConformant = true →
    generateMovieRecap callModel jsonParse info = .ok (recapOfJson j) ∧
    (∀ s, (j.getField "tagline").bind Json.asStr = some s → (recapOfJson j).tagline = s) ∧
    (∀ s, (j.getField "summary").bind Json.asStr = some s → (recapOfJson j).summary = s) ∧
    (∀ s, (j.getField "characterAnalysis").bind Json.asStr = some s →
        (recapOfJson j).characterAnalysis = s) ∧
    (∀ l, (j.getField "keyTakeaways").bind Json.asStrArr = some l →
        (recapOfJson j).keyTakeaways = l) ∧
    (∀ s, (j.getField "verdict").bind Json.asStr = some s → (recapOfJson j).verdict = s) := by
  intro hcm hne hp _
  refine ⟨by simp [generateMovieRecap, hcm, hne, hp], ?_, ?_, ?_, ?_, ?_⟩ <;>
    intro x hx <;> simp [recapOfJson, hx]

theorem recap_fields_follow_response_witness :
    generateMovieRecap (fun _ => some "resp")
      (fun _ => some (Json.obj [("tagline", .str "A mind-bending heist."),
        ("summary", .str "Dreams within dreams."),
        ("characterAnalysis", .str "Cobb is haunted by Mal."),
        ("keyTakeaways", .arr [.str "Reality is layered."]),
        ("verdict", .str "Essential viewing.")]))
      ⟨"Inception", "", "", "", "Dramatic", false, .short⟩ =
      .ok (recapOfJson (Json.obj [("tagline", .str "A mind-bending heist."),
        ("summary", .str "Dreams within dreams."),
        ("characterAnalysis", .str "Cobb is haunted by Mal."),
        ("keyTakeaways", .arr [.str "Reality is layered."]),
        ("verdict", .str "Essential viewing.")])) ∧
    (∀ s, ((Json.obj [("tagline", .str "A mind-bending heist."),
        ("summary", .str "Dreams within dreams."),
        ("characterAnalysis", .str "Cobb is haunted by Mal."),
        ("keyTakeaways", .arr [.str "Reality is layered."]),
        ("verdict", .str "Essential viewing.")]).getField "tagline").bind Json.asStr =
          some s →
      (recapOfJson (Json.obj [("tagline", .str "A mind-bending heist."),
        ("summary", .str "Dreams within dreams."),
        ("characterAnalysis", .str "Cobb is haunted by Mal."),
        ("keyTakeaways", .arr [.str "Reality is layered."]),
        ("verdict", .str "Essential viewing.")])).tagline = s) ∧
    (∀ s, ((Json.obj [("tagline", .str "A mind-bending heist."),
        ("summary", .str "Dreams within dreams."),
        ("characterAnalysis", .str "Cobb is haunted by Mal."),
        ("keyTakeaways", .arr [.str "Reality is layered."]),
        ("verdict", .str "Essential viewing.")]).getField "summary").bind Json.asStr =
          some s →
      (recapOfJson (Json.obj [("tagline", .str "A mind-bending heist."),
        ("summary", .str "Dreams within dreams."),
        ("characterAnalysis", .str "Cobb is haunted by Mal."),
        ("keyTakeaways", .arr [.str "Reality is layered."]),
        ("verdict", .str "Essential viewing.")])).summary = s) ∧
    (∀ s, ((Json.obj [("tagline", .str "A mind-bending heist."),
        ("summary", .str "Dreams within dreams."),
        ("characterAnalysis", .str "Cobb is haunted by Mal."),
        ("keyTakeaways", .arr [.str "Reality is layered."]),
        ("verdict", .str "Essential viewing.")]).getField "characterAnalysis").bind
          Json.asStr = some s →
      (recapOfJson (Json.obj [("tagline", .str "A mind-bending heist."),
        ("summary", .str "Dreams within dreams."),
        ("characterAnalysis", .str "Cobb is haunted by Mal."),
        ("keyTakeaways", .arr [.str "Reality is layered."]),
        ("verdict", .str "Essential viewing.")])).characterAnalysis = s) ∧
    (∀ l, ((Json.obj [("tagline", .str "A mind-bending heist."),
        ("summary", .str "Dreams within dreams."),
        ("characterAnalysis", .str "Cobb is haunted by Mal."),
        ("keyTakeaways", .arr [.str "Reality is layered."]),
        ("verdict", .str "Essential viewing.")]).getField "keyTakeaways").bind
          Json.asStrArr = some l →
      (recapOfJson (Json.obj [("tagline", .str "A mind-bending heist."),
        ("summary", .str "Dreams within dreams."),
        ("characterAnalysis", .str "Cobb is haunted by Mal."),
        ("keyTakeaways", .arr [.str "Reality is layered."]),
        ("verdict", .str "Essential viewing.")])).keyTakeaways = l) ∧
    (∀ s, ((Json.obj [("tagline", .str "A mind-bending heist."),
        ("summary", .str "Dreams within dreams."),
        ("characterAnalysis", .str "Cobb is haunted by Mal."),
        ("keyTakeaways", .arr [.str "Reality is layered."]),
        ("verdict", .str "Essential viewing.")]).getField "verdict").bind Json.asStr =
          some s →
      (recapOfJson (Json.obj [("tagline", .str "A mind-bending heist."),
        ("summary", .str "Dreams within dreams."),
        ("characterAnalysis", .str "Cobb is haunted by Mal."),
        ("keyTakeaways", .arr [.str "Reality is layered."]),
        ("verdict", .str "Essential viewing.")])).verdict = s) :=
  recap_fields_follow_response (fun _ => some "resp")
    (fun _ => some (Json.obj [("tagline", .str "A mind-bending heist."),
      ("summary", .str "Dreams within dreams."),
      ("characterAnalysis", .str "Cobb is haunted by Mal."),
      ("keyTakeaways", .arr [.str "Reality is layered."]),
      ("verdict", .str "Essential viewing.")]))
    ⟨"Inception", "", "", "", "Dramatic", false, .short⟩ "resp"
    (Json.obj [("tagline", .str "A mind-bending heist."),
      ("summary", .str "Dreams within dreams."),
      ("characterAnalysis", .str "Cobb is haunted by Mal."),
      ("keyTakeaways", .arr [.str "Reality is layered."]),
      ("verdict", .str "Essential viewing.")])
    rfl (by decide) rfl rfl

/-- C7: both fingerprint variants are deterministic — two computations over
identical environment inputs return the same output string. -/
theorem fingerprint_deterministic (e₁ e₂ : Env) :
    e₁ = e₂ →
    getDeviceFingerprintV1 e₁ = getDeviceFingerprintV1 e₂ ∧
    getDeviceFingerprintV2 e₁ = getDeviceFingerprintV2 e₂ := by
  intro h
  subst h
  exact ⟨rfl, rfl⟩

theorem fingerprint_deterministic_witness :
    getDeviceFingerprintV1 ⟨"Mozilla/5.0", "Linux", "en-US", 8, 1920, 1080, 1920, 1040,
        24, 0, true⟩ =
      getDeviceFingerprintV1 ⟨"Mozilla/5.0", "Linux", "en-US", 8, 1920, 1080, 1920, 1040,
        24, 0, true⟩ ∧
    getDeviceFingerprintV2 ⟨"Mozilla/5.0", "Linux", "en-US", 8, 1920, 1080, 1920, 1040,
        24, 0, true⟩ =
      getDeviceFingerprintV2 ⟨"Mozilla/5.0", "Linux", "en-US", 8, 1920, 1080, 1920, 1040,
        24, 0, true⟩ :=
  fingerprint_deterministic
    ⟨"Mozilla/5.0", "Linux", "en-US", 8, 1920, 1080, 1920, 1040, 24, 0, true⟩
    ⟨"Mozilla/5.0", "Linux", "en-US", 8, 1920, 1080, 1920, 1040, 24, 0, true⟩ rfl

/-- C8: both fingerprint variants are total — when the base64 encoding step
fails (a character outside the Latin-1 range), each returns its fixed
sentinel string instead of raising: `'ERR-DEVICE-ID'` for variant 1 and
`'UNKNOWN-DEVICE'` for variant 2. -/
theorem fingerprint_encoding_sentinel (env : Env) :
    (btoa (idStringV1 env) = none → getDeviceFingerprintV1 env = "ERR-DEVICE-ID") ∧
    (btoa (idStringV2 env) = none → getDeviceFingerprintV2 env = "UNKNOWN-DEVICE") := by
  constructor
  · intro h
    simp [getDeviceFingerprintV1, h]
  · intro h
    simp [getDeviceFingerprintV2, h]

theorem fingerprint_encoding_sentinel_witness :
    getDeviceFingerprintV1 ⟨"Mozilla/5.0 (π)", "Linux", "en-US", 8, 1920, 1080, 1920,
        1040, 24, 0, true⟩ = "ERR-DEVICE-ID" ∧
    getDeviceFingerprintV2 ⟨"Mozilla/5.0 (π)", "Linux", "en-US", 8, 1920, 1080, 1920,
        1040, 24, 0, true⟩ = "UNKNOWN-DEVICE" :=
  ⟨(fingerprint_encoding_sentinel ⟨"Mozilla/5.0 (π)", "Linux", "en-US", 8, 1920, 1080,
      1920, 1040, 24, 0, true⟩).1 (by decide),
   (fingerprint_encoding_sentinel ⟨"Mozilla/5.0 (π)", "Linux", "en-US", 8, 1920, 1080,
      1920, 1040, 24, 0, true⟩).2 (by decide)⟩

/-- C9: the two fingerprint variants are extensionally different — on one and
the same environment (identical browser attributes) they return different
strings, so a rewrite cannot preserve both as a single canonical
algorithm. -/
theorem fingerprint_variants_differ :
    ∃ env : Env, getDeviceFingerprintV1 env ≠ getDeviceFingerprintV2 env :=
  ⟨⟨"Mozilla/5.0", "Linux", "en-US", 8, 1920, 1080, 1920, 1040, 24, 0, true⟩, by decide⟩

end CineRecap
